import Mathlib

/-!
Verification of the bletui session coordination layer (spec.md) against a
shallow embedding of the Python source (`ble_tui/`).  Python `bytes` are
`List Nat` (each byte 0..255), `dict` is an insertion-ordered association
list, `set` is a duplicate-free list, `deque(maxlen=N)` is a list with
left-eviction on append.
-/

namespace BleTui

/-- First-match lookup over an association list: Python `dict.get`. -/
def alookup {α β : Type} [DecidableEq α] (k : α) : List (α × β) → Option β
  | [] => none
  | (a, b) :: rest => if a = k then some b else alookup k rest

/-- Python `dict[k] = v`: replace the value at the first occurrence of `k`,
or append `(k, v)` when `k` is absent (insertion order preserved). -/
def aset {α β : Type} [DecidableEq α] (k : α) (v : β) : List (α × β) → List (α × β)
  | [] => [(k, v)]
  | (a, b) :: rest => if a = k then (a, v) :: rest else (a, b) :: aset k v rest

/-- Python `dict.pop(k, None)`: drop every binding of `k`. -/
def aerase {α β : Type} [DecidableEq α] (k : α) (l : List (α × β)) : List (α × β) :=
  l.filter (fun p => p.1 ≠ k)

theorem alookup_aset_self {α β : Type} [DecidableEq α] (k : α) (v : β) (l : List (α × β)) :
    alookup k (aset k v l) = some v := by
  induction l with
  | nil => simp [aset, alookup]
  | cons hd tl ih =>
    obtain ⟨a, b⟩ := hd
    by_cases h : a = k
    · simp [aset, alookup, h]
    · simp [aset, alookup, h, ih]

theorem alookup_aset_ne {α β : Type} [DecidableEq α] (k k2 : α) (v : β) (l : List (α × β))
    (h : k2 ≠ k) : alookup k2 (aset k v l) = alookup k2 l := by
  induction l with
  | nil => simp [aset, alookup, Ne.symm h]
  | cons hd tl ih =>
    obtain ⟨a, b⟩ := hd
    by_cases ha : a = k
    · subst ha
      simp [aset, alookup, Ne.symm h]
    · simp only [aset, if_neg ha, alookup]
      by_cases ha2 : a = k2
      · simp [ha2]
      · simp [ha2, ih]

theorem alookup_aerase_self {α β : Type} [DecidableEq α] (k : α) (l : List (α × β)) :
    alookup k (aerase k l) = none := by
  induction l with
  | nil => simp [aerase, alookup]
  | cons hd tl ih =>
    obtain ⟨a, b⟩ := hd
    by_cases h : a = k
    · simpa [aerase, alookup, h] using ih
    · simpa [aerase, alookup, h] using ih

theorem alookup_aerase_ne {α β : Type} [DecidableEq α] (k k2 : α) (l : List (α × β))
    (h : k2 ≠ k) : alookup k2 (aerase k l) = alookup k2 l := by
  induction l with
  | nil => simp [aerase, alookup]
  | cons hd tl ih =>
    obtain ⟨a, b⟩ := hd
    by_cases ha : a = k
    · subst ha
      simpa [aerase, alookup, Ne.symm h] using ih
    · by_cases ha2 : a = k2
      · subst ha2
        simp [aerase, alookup, List.filter_cons, h]
      · simpa [aerase, alookup, ha, ha2] using ih

/-- Lowercase hex digit, as produced by Python `bytes.hex()`. -/
def hexDigit (n : Nat) : Char :=
  if n < 10 then Char.ofNat (48 + n) else Char.ofNat (87 + n)

/-- Two lowercase hex digits for one byte. -/
def hexByte (n : Nat) : String :=
  String.mk [hexDigit (n / 16 % 16), hexDigit (n % 16)]

/-- `ble_tui/utils/formatting.py::hex_groups`: the hex rendering of a payload,
bytes space-separated (`""` for empty input). -/
def hex_groups (data : List Nat) : String :=
  String.intercalate " " (data.map hexByte)

/-- Inverse of a lowercase hex digit. -/
def unhexDigit (c : Char) : Option Nat :=
  if 48 ≤ c.toNat ∧ c.toNat ≤ 57 then some (c.toNat - 48)
  else if 97 ≤ c.toNat ∧ c.toNat ≤ 102 then some (c.toNat - 87)
  else none

/-- Decode one two-digit hex group back to a byte. -/
def unhexByte : List Char → Option Nat
  | [c1, c2] =>
    match unhexDigit c1, unhexDigit c2 with
    | some d1, some d2 => some (16 * d1 + d2)
    | _, _ => none
  | _ => none

/-- Split a character list on spaces. -/
def splitOnSpace : List Char → List (List Char)
  | [] => [[]]
  | c :: rest =>
    let r := splitOnSpace rest
    if c = ' ' then [] :: r
    else
      match r with
      | g :: gs => (c :: g) :: gs
      | [] => [[c]]

/-- Decode a `hex_groups` rendering back to the byte list. -/
def hexUngroup (s : String) : Option (List Nat) :=
  if s = "" then some [] else (splitOnSpace s.toList).mapM unhexByte

/-- UTF-8 continuation byte test. -/
def utf8Cont (b : Nat) : Bool := 0x80 ≤ b && b < 0xC0

/-- Model of Python `bytes.decode("utf-8")`: strict UTF-8 with overlong and
surrogate rejection; `none` models `UnicodeDecodeError`. -/
def utf8Decode : List Nat → Option (List Char)
  | [] => some []
  | b :: rest =>
    if b < 0x80 then
      (utf8Decode rest).map (fun cs => Char.ofNat b :: cs)
    else if 0xC2 ≤ b ∧ b ≤ 0xDF then
      match rest with
      | b2 :: rest2 =>
        if utf8Cont b2 then
          (utf8Decode rest2).map (fun cs => Char.ofNat ((b - 0xC0) * 64 + (b2 - 0x80)) :: cs)
        else none
      | [] => none
    else if 0xE0 ≤ b ∧ b ≤ 0xEF then
      match rest with
      | b2 :: b3 :: rest3 =>
        if utf8Cont b2 && utf8Cont b3 && (b ≠ 0xE0 || 0xA0 ≤ b2) && (b ≠ 0xED || b2 < 0xA0) then
          (utf8Decode rest3).map
            (fun cs => Char.ofNat ((b - 0xE0) * 4096 + (b2 - 0x80) * 64 + (b3 - 0x80)) :: cs)
        else none
      | _ => none
    else if 0xF0 ≤ b ∧ b ≤ 0xF4 then
      match rest with
      | b2 :: b3 :: b4 :: rest4 =>
        if utf8Cont b2 && utf8Cont b3 && utf8Cont b4 &&
            (b ≠ 0xF0 || 0x90 ≤ b2) && (b ≠ 0xF4 || b2 < 0x90) then
          (utf8Decode rest4).map
            (fun cs =>
              Char.ofNat
                ((b - 0xF0) * 262144 + (b2 - 0x80) * 4096 + (b3 - 0x80) * 64 + (b4 - 0x80)) :: cs)
        else none
      | _ => none
    else none

/-- JSON values as produced by Python `json.loads`, restricted to the
integer-numeral subset the program's claims exercise (floats are outside
this shallow embedding). -/
inductive Json where
  | jnull : Json
  | jbool : Bool → Json
  | jnum : Int → Json
  | jstr : String → Json
  | jarr : List Json → Json
  | jobj : List (String × Json) → Json

/-- Skip JSON whitespace. -/
def skipWs : List Char → List Char
  | [] => []
  | c :: rest => if c = ' ' ∨ c = '\t' ∨ c = '\n' ∨ c = '\r' then skipWs rest else c :: rest

/-- Single-character JSON escapes. -/
def escChar (c : Char) : Option Char :=
  if c = '"' then some '"'
  else if c = '\\' then some '\\'
  else if c = '/' then some '/'
  else if c = 'b' then some (Char.ofNat 8)
  else if c = 'f' then some (Char.ofNat 12)
  else if c = 'n' then some '\n'
  else if c = 'r' then some '\r'
  else if c = 't' then some '\t'
  else none

/-- ASCII lowercasing of one character (model of `str.lower` restricted to
the ASCII range its callers search over). -/
def lowerChar (c : Char) : Char :=
  if 65 ≤ c.toNat ∧ c.toNat ≤ 90 then Char.ofNat (c.toNat + 32) else c

/-- ASCII `str.lower` on a whole string. -/
def strToLower (s : String) : String := String.mk (s.toList.map lowerChar)

/-- Four hex digits (for a `\uXXXX` escape). -/
def parseHex4 : List Char → Option (Nat × List Char)
  | c1 :: c2 :: c3 :: c4 :: rest =>
    match unhexDigit (lowerChar c1), unhexDigit (lowerChar c2), unhexDigit (lowerChar c3),
        unhexDigit (lowerChar c4) with
    | some d1, some d2, some d3, some d4 =>
      some (d1 * 4096 + d2 * 256 + d3 * 16 + d4, rest)
    | _, _, _, _ => none
  | _ => none

/-- Body of a JSON string literal (opening quote already consumed);
`\uXXXX` limited to non-surrogate scalars in this model. -/
def jparseStrChars : Nat → List Char → Option (List Char × List Char)
  | 0, _ => none
  | Nat.succ f, cs =>
    match cs with
    | [] => none
    | c :: rest =>
      if c = '"' then some ([], rest)
      else if c = '\\' then
        match rest with
        | [] => none
        | e :: rest2 =>
          if e = 'u' then
            match parseHex4 rest2 with
            | some (n, rest3) =>
              if n < 0xD800 ∨ 0xE000 ≤ n then
                (jparseStrChars f rest3).map (fun p => (Char.ofNat n :: p.1, p.2))
              else none
            | none => none
          else
            match escChar e with
            | some c2 => (jparseStrChars f rest2).map (fun p => (c2 :: p.1, p.2))
            | none => none
      else if c.toNat < 0x20 then none
      else (jparseStrChars f rest).map (fun p => (c :: p.1, p.2))

/-- Leading decimal digits. -/
def takeDigits : List Char → List Char × List Char
  | [] => ([], [])
  | c :: rest =>
    if 48 ≤ c.toNat ∧ c.toNat ≤ 57 then
      let p := takeDigits rest
      (c :: p.1, p.2)
    else ([], c :: rest)

/-- Digits to a natural number. -/
def digitsToNat (ds : List Char) : Nat :=
  ds.foldl (fun acc c => acc * 10 + (c.toNat - 48)) 0

mutual

/-- Recursive-descent model of `json.loads` (value position), fuelled.
Integer numerals only: a numeral followed by `.`, `e` or `E` is rejected,
a deliberate restriction of the model to the non-float subset. -/
def jparseVal : Nat → List Char → Option (Json × List Char)
  | 0, _ => none
  | Nat.succ f, cs =>
    match cs with
    | 'n' :: 'u' :: 'l' :: 'l' :: rest => some (Json.jnull, rest)
    | 't' :: 'r' :: 'u' :: 'e' :: rest => some (Json.jbool true, rest)
    | 'f' :: 'a' :: 'l' :: 's' :: 'e' :: rest => some (Json.jbool false, rest)
    | '"' :: rest =>
      (jparseStrChars (Nat.succ f) rest).map (fun p => (Json.jstr (String.mk p.1), p.2))
    | '[' :: rest =>
      match skipWs rest with
      | ']' :: rest2 => some (Json.jarr [], rest2)
      | rest2 => (jparseArrItems f rest2).map (fun p => (Json.jarr p.1, p.2))
    | '-' :: rest =>
      match takeDigits rest with
      | ([], _) => none
      | (ds, rest2) =>
        match rest2 with
        | c :: _ => if c = '.' ∨ c = 'e' ∨ c = 'E' then none
            else some (Json.jnum (-(digitsToNat ds : Int)), rest2)
        | [] => some (Json.jnum (-(digitsToNat ds : Int)), rest2)
    | c :: rest =>
      if c = Char.ofNat 123 then
        match skipWs rest with
        | c2 :: rest2 =>
          if c2 = Char.ofNat 125 then some (Json.jobj [], rest2)
          else (jparseObjItems f (c2 :: rest2)).map (fun p => (Json.jobj p.1, p.2))
        | [] => none
      else if 48 ≤ c.toNat ∧ c.toNat ≤ 57 then
        match takeDigits (c :: rest) with
        | (ds, rest2) =>
          match rest2 with
          | c3 :: _ => if c3 = '.' ∨ c3 = 'e' ∨ c3 = 'E' then none
              else some (Json.jnum (digitsToNat ds : Int), rest2)
          | [] => some (Json.jnum (digitsToNat ds : Int), rest2)
      else none
    | [] => none

/-- Comma-separated array items (at least one, terminated by `]`). -/
def jparseArrItems : Nat → List Char → Option (List Json × List Char)
  | 0, _ => none
  | Nat.succ f, cs =>
    match jparseVal f (skipWs cs) with
    | none => none
    | some (v, rest) =>
      match skipWs rest with
      | ',' :: rest2 => (jparseArrItems f rest2).map (fun p => (v :: p.1, p.2))
      | ']' :: rest2 => some ([v], rest2)
      | _ => none

/-- Comma-separated object members (at least one, terminated by the closing
brace). -/
def jparseObjItems : Nat → List Char → Option (List (String × Json) × List Char)
  | 0, _ => none
  | Nat.succ f, cs =>
    match skipWs cs with
    | '"' :: rest =>
      match jparseStrChars (Nat.succ f) rest with
      | none => none
      | some (kcs, rest2) =>
        match skipWs rest2 with
        | ':' :: rest3 =>
          match jparseVal f (skipWs rest3) with
          | none => none
          | some (v, rest4) =>
            match skipWs rest4 with
            | ',' :: rest5 =>
              (jparseObjItems f rest5).map (fun p => ((String.mk kcs, v) :: p.1, p.2))
            | c :: rest5 =>
              if c = Char.ofNat 125 then some ([(String.mk kcs, v)], rest5) else none
            | [] => none
        | _ => none
    | _ => none

end

/-- Model of `json.loads` on a whole text: one value, then only whitespace. -/
def jparse (cs : List Char) : Option Json :=
  match jparseVal (cs.length + 8) (skipWs cs) with
  | some (v, rest) => if skipWs rest = [] then some v else none
  | none => none

/-- `\uXXXX` rendering of a code point (BMP). -/
def uEscape (n : Nat) : List Char :=
  ['\\', 'u', hexDigit (n / 4096 % 16), hexDigit (n / 256 % 16), hexDigit (n / 16 % 16),
    hexDigit (n % 16)]

/-- One character of a dumped JSON string under `ensure_ascii=True`
(BMP code points; astral surrogate pairing is outside this model). -/
def escapeChar (c : Char) : List Char :=
  if c = '"' then ['\\', '"']
  else if c = '\\' then ['\\', '\\']
  else if c = '\n' then ['\\', 'n']
  else if c = '\t' then ['\\', 't']
  else if c = '\r' then ['\\', 'r']
  else if c = Char.ofNat 8 then ['\\', 'b']
  else if c = Char.ofNat 12 then ['\\', 'f']
  else if c.toNat < 0x20 ∨ 0x80 ≤ c.toNat then uEscape c.toNat
  else [c]

/-- Quoted, escaped JSON string literal. -/
def jstrQuote (s : String) : String :=
  String.mk ('"' :: (s.toList.flatMap escapeChar ++ ['"']))

mutual

/-- Model of `json.dumps(obj, ensure_ascii=True, separators=(",", ":"))`:
the canonical compact rendering stored in `LogEntry.json_str`. -/
def jdump : Json → String
  | Json.jnull => "null"
  | Json.jbool true => "true"
  | Json.jbool false => "false"
  | Json.jnum n => toString n
  | Json.jstr s => jstrQuote s
  | Json.jarr xs => "[" ++ jdumpItems xs ++ "]"
  | Json.jobj fs => "\x7b" ++ jdumpFields fs ++ "\x7d"

/-- Comma-joined array items. -/
def jdumpItems : List Json → String
  | [] => ""
  | [x] => jdump x
  | x :: y :: rest => jdump x ++ "," ++ jdumpItems (y :: rest)

/-- Comma-joined `"key":value` members. -/
def jdumpFields : List (String × Json) → String
  | [] => ""
  | [(k, v)] => jstrQuote k ++ ":" ++ jdump v
  | (k, v) :: m :: rest => jstrQuote k ++ ":" ++ jdump v ++ "," ++ jdumpFields (m :: rest)

end

/-- `ble_tui/utils/formatting.py::try_parse_json`: UTF-8 decode, parse,
re-serialize canonically; `none` on either failure. -/
def try_parse_json (data : List Nat) : Option String :=
  match utf8Decode data with
  | none => none
  | some cs =>
    match jparse cs with
    | none => none
    | some v => some (jdump v)

/-- `ble_tui/models/log_entry.py::LogEntry` (frozen dataclass). -/
structure LogEntry where
  ts : String
  size : Nat
  hex_str : String
  json_str : Option String
deriving DecidableEq

/-- `ble_tui/models/characteristic.py::CharacteristicInfo` (frozen
dataclass).  The opaque transport object `char` is read only through
`getattr(info.char, "handle", None)`, so it is embedded as that optional
numeric handle. -/
structure CharacteristicInfo where
  key : String
  uuid : String
  properties : List String
  service_uuid : String
  charHandle : Option Nat
deriving DecidableEq

/-- `ble_tui/models/device.py::DeviceInfo` (frozen dataclass). -/
structure DeviceInfo where
  name : String
  address : String
  rssi : Int
deriving DecidableEq

/-- Modelled from the spec: `ble_tui/utils/constants.py` is absent from
`src/`; §3 fixes only "a fixed maximum N" for the Log Ring, and the test
suite pins N = 200 ("Should only keep last 200 (LOG_MAX)"). -/
def LOG_MAX : Nat := 200

/-- `collections.deque(maxlen=m)` append: evict from the left once full. -/
def dequeAppend {α : Type} (maxlen : Nat) (l : List α) (x : α) : List α :=
  let l2 := l ++ [x]
  if maxlen < l2.length then l2.drop (l2.length - maxlen) else l2

/-- `ble_tui/services/state_service.py::StateService` fields. -/
structure StateService where
  devices : List (String × DeviceInfo)
  device_order : List String
  services : List (String × List CharacteristicInfo)
  key_by_handle : List (Nat × String)
  logs : List (String × List LogEntry)
  subscribed : List String
  latest_data : List (String × List Nat)
deriving DecidableEq

/-- `StateService.__init__`: every container empty. -/
def StateService.init : StateService :=
  ⟨[], [], [], [], [], [], []⟩

/-- `StateService.replace_devices`. -/
def StateService.replace_devices (s : StateService) (devs : List DeviceInfo) : StateService :=
  { s with
    devices := devs.foldl (fun m d => aset d.address d m) [],
    device_order := devs.map (fun d => d.address) }

/-- `StateService.clear_connection_state`: the five connection-scoped
containers are cleared by the one call. -/
def StateService.clear_connection_state (s : StateService) : StateService :=
  { s with services := [], key_by_handle := [], subscribed := [], latest_data := [], logs := [] }

/-- `StateService.set_gatt`. -/
def StateService.set_gatt (s : StateService) (services : List (String × List CharacteristicInfo))
    (key_by_handle : List (Nat × String)) : StateService :=
  { s with services := services, key_by_handle := key_by_handle }

/-- Inner loop of `StateService.find_char`: first match by exact key. -/
def findIn (key : String) : List CharacteristicInfo → Option CharacteristicInfo
  | [] => none
  | info :: rest => if info.key = key then some info else findIn key rest

/-- Outer loop of `StateService.find_char` over the services map values. -/
def findCharInServices (key : String) :
    List (String × List CharacteristicInfo) → Option CharacteristicInfo
  | [] => none
  | (_, chars) :: rest =>
    match findIn key chars with
    | some i => some i
    | none => findCharInServices key rest

/-- `StateService.find_char`: linear scan over the discovery map. -/
def StateService.find_char (s : StateService) (key : String) : Option CharacteristicInfo :=
  findCharInServices key s.services

theorem findIn_key {key : String} {l : List CharacteristicInfo} {info : CharacteristicInfo}
    (h : findIn key l = some info) : info.key = key := by
  induction l with
  | nil => simp [findIn] at h
  | cons hd tl ih =>
    by_cases hk : hd.key = key
    · simp [findIn, hk] at h
      rw [← h]
      exact hk
    · simp [findIn, hk] at h
      exact ih h

theorem findCharInServices_key {key : String} {l : List (String × List CharacteristicInfo)}
    {info : CharacteristicInfo} (h : findCharInServices key l = some info) : info.key = key := by
  induction l with
  | nil => simp [findCharInServices] at h
  | cons hd tl ih =>
    obtain ⟨svc, chars⟩ := hd
    simp only [findCharInServices] at h
    cases hfi : findIn key chars with
    | some i =>
      rw [hfi] at h
      simp at h
      rw [← h]
      exact findIn_key hfi
    | none =>
      rw [hfi] at h
      exact ih h

theorem find_char_key {s : StateService} {key : String} {info : CharacteristicInfo}
    (h : s.find_char key = some info) : info.key = key :=
  findCharInServices_key h

/-- `StateService.append_value`: build the `LogEntry` via the codec, append
to the key's ring (created empty on first use, `maxlen=LOG_MAX`), and store
the original bytes as the last raw value.  The wall-clock timestamp is
passed in as `ts`. -/
def StateService.append_value (s : StateService) (key : String) (ts : String)
    (data : List Nat) : StateService × LogEntry :=
  let entry : LogEntry :=
    { ts := ts, size := data.length, hex_str := hex_groups data, json_str := try_parse_json data }
  let ring := (alookup key s.logs).getD []
  ({ s with
      logs := aset key (dequeAppend LOG_MAX ring entry) s.logs,
      latest_data := aset key data s.latest_data },
    entry)

/-- Empty the ring stored at `key`, keeping the key present (other keys
untouched). -/
def emptyRingAt (key : String) : List (String × List LogEntry) →
    List (String × List LogEntry)
  | [] => []
  | (a, b) :: rest => (a, if a = key then [] else b) :: emptyRingAt key rest

/-- Modelled from the spec: `StateService.clear_char_log` is called by
`app.py::action_clear_log` and by the test suite, but its definition is
absent from `src/ble_tui/services/state_service.py`.  Spec §6: the per-key
clear-history request "empties that key's Log Ring and last-raw-value
without touching subscription state or other keys' logs"; the tests pin
that the emptied ring stays present (`len(state.logs[key]) == 0`), the raw
value is removed (`key not in state.latest_data`), and an unknown key is a
no-op. -/
def StateService.clear_char_log (s : StateService) (key : String) : StateService :=
  { s with logs := emptyRingAt key s.logs, latest_data := aerase key s.latest_data }

/-- `StateService.char_target`: prefer the numeric transport handle, fall
back to the characteristic id. -/
def StateService.char_target (info : CharacteristicInfo) : Nat ⊕ String :=
  match info.charHandle with
  | some h => Sum.inl h
  | none => Sum.inr info.uuid

theorem alookup_emptyRingAt_self (key : String) (l : List (String × List LogEntry)) :
    alookup key (emptyRingAt key l) = (alookup key l).map (fun _ => []) := by
  induction l with
  | nil => simp [emptyRingAt, alookup]
  | cons hd tl ih =>
    obtain ⟨a, b⟩ := hd
    by_cases h : a = key
    · subst h
      simp [emptyRingAt, alookup]
    · simpa [emptyRingAt, alookup, h] using ih

theorem alookup_emptyRingAt_ne (key k2 : String) (l : List (String × List LogEntry))
    (h : k2 ≠ key) : alookup k2 (emptyRingAt key l) = alookup k2 l := by
  induction l with
  | nil => simp [emptyRingAt, alookup]
  | cons hd tl ih =>
    obtain ⟨a, b⟩ := hd
    by_cases ha2 : a = k2
    · subst ha2
      simp [emptyRingAt, alookup, Ne.symm h, ih]
      exact fun hh => absurd hh h
    · simpa [emptyRingAt, alookup, ha2] using ih

/-- Whether the pattern (first argument) is an initial segment of the text. -/
def listStartsWith : List Char → List Char → Bool
  | [], _ => true
  | _ :: _, [] => false
  | c :: p, d :: s => c = d && listStartsWith p s

/-- Whether the pattern occurs contiguously in the text: Python `pat in text`. -/
def listOccurs (p : List Char) : List Char → Bool
  | [] => listStartsWith p []
  | c :: rest => listStartsWith p (c :: rest) || listOccurs p rest

/-- Python `pat in text` on strings. -/
def strOccurs (pat text : String) : Bool := listOccurs pat.toList text.toList

/-- Python `text.startswith(pat)`. -/
def strStartsWith (text pat : String) : Bool := listStartsWith pat.toList text.toList

/-- `ble_tui/utils/platform_support.py::current_platform_name`. -/
def current_platform_name (platform : String) : String :=
  let value := strToLower platform
  if strStartsWith value "win" then "windows"
  else if strStartsWith value "linux" then "linux"
  else if strStartsWith value "darwin" then "macos"
  else "unknown"

/-- A Python exception at the Device Gateway boundary, embedded by the two
texts the coordination layer reads: its `repr` and its `str`. -/
structure BleExc where
  reprText : String
  strText : String
deriving DecidableEq

/-- The text `platform_ble_hint` searches: `f"{exc!r} {exc}".lower()`. -/
def excSearchText (e : BleExc) : String := strToLower (e.reprText ++ " " ++ e.strText)

/-- `platform_support.py`: signatures of an unavailable adapter/stack. -/
def unavailableTokens : List String :=
  ["bluetooth is unsupported", "bleakbluetoothnotavailableerror", "no_bluetooth",
    "bluetooth is off"]

/-- `platform_support.py`: signatures of a Linux stack/permission problem. -/
def linuxStackTokens : List String :=
  ["org.bluez", "bluez", "dbus", "permission denied", "operation not permitted"]

/-- `ble_tui/utils/platform_support.py::platform_ble_hint`: the platform
remediation mapping (`platform` stands for `sys.platform`). -/
def platform_ble_hint (e : BleExc) (platform : String) : String :=
  let plat := current_platform_name platform
  let text := excSearchText e
  if unavailableTokens.any (fun t => strOccurs t text) then
    if plat = "windows" then "Check that Bluetooth is enabled and a BLE adapter is available."
    else if plat = "linux" then
      "Check Bluetooth adapter, ensure bluetoothd is running, and verify BlueZ permissions."
    else if plat = "macos" then
      "Check Bluetooth is enabled and grant terminal Bluetooth permission in System Settings."
    else "Check Bluetooth is enabled and an adapter is available."
  else if plat = "linux" && linuxStackTokens.any (fun t => strOccurs t text) then
    "Ensure BlueZ/dbus are installed and running, then retry with sufficient permissions."
  else if plat = "windows" && strOccurs "access is denied" text then
    "Run with an account that has Bluetooth access and confirm adapter permissions."
  else "Check Bluetooth availability and platform BLE prerequisites."

/-- `ble_tui/utils/platform_support.py::format_ble_error`. -/
def format_ble_error (action : String) (e : BleExc) (platform error_log_path : String) : String :=
  action ++ " failed: " ++ platform_ble_hint e platform ++ " (details in " ++ error_log_path ++ ")"

/-- Modelled from the spec: `ble_tui/utils/constants.py` is absent from
`src/`; the diagnostic-sink path re-exported as `ERROR_LOG_PATH` is pinned
by the test suite as `ble_tui_errors.log`. -/
def ERROR_LOG_PATH : String := "ble_tui_errors.log"

/-- The coordinator state of `app.py::BleTui` restricted to what the six
operations read and write: the connection handle (presence of
`self._client`), the `StateService`, the selections, the status line, the
diagnostic sink contents (pairs of context tag and failure), the running
platform, and the scan flag. -/
structure App where
  client : Option Unit
  state : StateService
  selected_device : Option String
  selected_char : Option String
  status : String
  errlog : List (String × BleExc)
  platform : String
  scan_in_progress : Bool
deriving DecidableEq

/-- `BleTui._record_error`: append `(context, failure)` to the sink. -/
def record_error (a : App) (context : String) (e : BleExc) : App :=
  { a with errlog := a.errlog ++ [(context, e)] }

/-- `BleTui._set_status`. -/
def set_status (a : App) (msg : String) : App := { a with status := msg }

/-- `BleTui._disconnect_internal`: best-effort gateway close (failure
recorded, not propagated), then drop the handle and reset connection-scoped
state.  `dres` is the gateway close outcome, consulted only while a client
exists. -/
def disconnect_internal (a : App) (dres : Except BleExc Unit) : App :=
  let a1 :=
    match a.client, dres with
    | some _, Except.error e => record_error a "disconnect" e
    | _, _ => a
  { a1 with client := none, state := a1.state.clear_connection_state, selected_char := none }

/-- `BleTui.action_disconnect`. -/
def action_disconnect (a : App) (dres : Except BleExc Unit) : App :=
  set_status (disconnect_internal a dres) "Disconnected"

/-- `BleTui._handle_disconnect`: the unsolicited-disconnect entry point. -/
def handle_disconnect (a : App) : App :=
  set_status
    { a with client := none, state := a.state.clear_connection_state, selected_char := none }
    "Device disconnected unexpectedly"

/-- The tuple returned by `BleService.discover_gatt`. -/
structure GattResult where
  services_map : List (String × List CharacteristicInfo)
  key_map : List (Nat × String)
  service_count : Nat
  char_count : Nat
deriving DecidableEq

/-- `BleTui._discover_gatt` with the gateway discovery outcome `gres`:
failure is recorded and summarised, success installs the new maps. -/
def discover_gatt_step (a : App) (gres : Except BleExc GattResult) : App :=
  match a.client with
  | none => a
  | some _ =>
    match gres with
    | Except.error e =>
      set_status (record_error a "discover_gatt" e)
        (format_ble_error "Service discovery" e a.platform ERROR_LOG_PATH)
    | Except.ok g =>
      set_status { a with state := a.state.set_gatt g.services_map g.key_map }
        ("GATT loaded: " ++ toString g.service_count ++ " service(s), " ++
          toString g.char_count ++ " characteristic(s).")

/-- `BleTui.action_connect` with the gateway outcomes of the close
(`dres`), open (`cres`) and discovery (`gres`) steps. -/
def action_connect (a : App) (dres cres : Except BleExc Unit)
    (gres : Except BleExc GattResult) : App :=
  match a.selected_device with
  | none => set_status a "Select a device first."
  | some addr =>
    let a1 := disconnect_internal a dres
    let a2 := set_status a1 ("Connecting to " ++ addr ++ "...")
    match cres with
    | Except.error e =>
      set_status (record_error a2 "connect" e)
        (format_ble_error "Connect" e a.platform ERROR_LOG_PATH)
    | Except.ok _ =>
      let a3 := set_status { a2 with client := some () } ("Connected: " ++ addr)
      discover_gatt_step a3 gres

/-- `BleTui.action_scan` with the gateway scan outcome (`BleService.scan`'s
sorted device list on success). -/
def action_scan (a : App) (scanRes : Except BleExc (List DeviceInfo)) : App :=
  if a.scan_in_progress then a
  else
    let s1 := { a.state with devices := [], device_order := [] }
    match scanRes with
    | Except.error e =>
      set_status (record_error { a with state := s1, scan_in_progress := false } "scan" e)
        (format_ble_error "Scan" e a.platform ERROR_LOG_PATH)
    | Except.ok devs =>
      set_status { a with state := s1.replace_devices devs, scan_in_progress := false }
        ("Scan complete: " ++ toString devs.length ++ " device(s).")

/-- `BleTui.action_read_char` with the gateway read outcome; the selected
characteristic is resolved through `StateService.find_char`. -/
def action_read_char (a : App) (rres : Except BleExc (List Nat)) (ts : String) : App :=
  match a.client with
  | none => set_status a "Select a characteristic first."
  | some _ =>
    match a.selected_char with
    | none => set_status a "Selected characteristic is not readable."
    | some key =>
      match a.state.find_char key with
      | none => set_status a "Selected characteristic is not readable."
      | some info =>
        if "read" ∈ info.properties then
          match rres with
          | Except.error e =>
            set_status (record_error a "read_char" e)
              ("Read failed (details in " ++ ERROR_LOG_PATH ++ ")")
          | Except.ok data =>
            set_status { a with state := (a.state.append_value info.key ts data).1 }
              ("Read " ++ info.uuid)
        else set_status a "Selected characteristic is not readable."

/-- `BleTui.action_toggle_notify` with the gateway outcome of the one
start/stop call the action issues. -/
def action_toggle_notify (a : App) (gwRes : Except BleExc Unit) : App :=
  match a.client with
  | none => set_status a "Select a characteristic first."
  | some _ =>
    match a.selected_char with
    | none => set_status a "Selected characteristic is not notifiable."
    | some key =>
      match a.state.find_char key with
      | none => set_status a "Selected characteristic is not notifiable."
      | some info =>
        if "notify" ∈ info.properties ∨ "indicate" ∈ info.properties then
          if info.key ∈ a.state.subscribed then
            match gwRes with
            | Except.error e =>
              set_status (record_error a "stop_notify" e)
                ("Stop notify failed (details in " ++ ERROR_LOG_PATH ++ ")")
            | Except.ok _ =>
              set_status
                { a with state :=
                    { a.state with
                      subscribed := a.state.subscribed.filter (fun k => k ≠ info.key) } }
                ("Stopped notify " ++ info.uuid)
          else
            match gwRes with
            | Except.error e =>
              set_status (record_error a "start_notify" e)
                ("Start notify failed (details in " ++ ERROR_LOG_PATH ++ ")")
            | Except.ok _ =>
              set_status
                { a with state :=
                    { a.state with subscribed := info.key :: a.state.subscribed } }
                ("Subscribed " ++ info.uuid)
        else set_status a "Selected characteristic is not notifiable."

/-- `BleTui._do_write` with the gateway behaviour `g` (outcome of
`BleService.write_char` for a given `response` flag).  Besides the updated
coordinator state it returns the trace of gateway write calls actually
made, as the list of their `response` flags in order. -/
def do_write (a : App) (info : CharacteristicInfo) (data : List Nat) (use_response : Bool)
    (g : Bool → Except BleExc Unit) : App × List Bool :=
  match g use_response with
  | Except.ok _ =>
    (set_status a ("Wrote " ++ toString data.length ++ " bytes to " ++ info.uuid),
      [use_response])
  | Except.error e =>
    if use_response then
      let a1 := record_error a "write_char (with-response, retrying without)" e
      match g false with
      | Except.error e2 =>
        (set_status (record_error a1 "write_char (without-response)" e2)
            ("Write failed (details in " ++ ERROR_LOG_PATH ++ ")"),
          [true, false])
      | Except.ok _ =>
        (set_status a1
            ("Wrote " ++ toString data.length ++ " bytes to " ++ info.uuid ++
              " (no-response fallback)"),
          [true, false])
    else
      (set_status (record_error a "write_char" e)
          ("Write failed (details in " ++ ERROR_LOG_PATH ++ ")"),
        [false])

/-- The key resolution of the notification callback `_cb` in
`action_toggle_notify`: a numeric sender handle resolved through
`key_by_handle` wins over the key captured at subscribe time; a missing
handle (or one absent from the index) falls back to the captured key. -/
def notify_cb_key (s : StateService) (captured : String) (sender_handle : Option Nat) : String :=
  match sender_handle with
  | some h => (alookup h s.key_by_handle).getD captured
  | none => captured

/-- One notification delivery: `_cb` resolves the key, `_dispatch_notify`
and `_append_value` append the payload there and update the status. -/
def deliver_notification (a : App) (captured uuid : String) (sender_handle : Option Nat)
    (data : List Nat) (ts : String) : App :=
  let key := notify_cb_key a.state captured sender_handle
  set_status { a with state := (a.state.append_value key ts data).1 }
    ("Notify " ++ uuid ++ " (" ++ toString data.length ++ " B)")

/-- `BleTui.action_clear_log`: the per-key clear-history request. -/
def action_clear_log (a : App) : App :=
  match a.selected_char with
  | none => set_status a "No characteristic selected to clear."
  | some key =>
    match a.state.find_char key with
    | none => set_status a "Selected characteristic not found."
    | some info =>
      set_status { a with state := a.state.clear_char_log key }
        ("Cleared history for " ++ info.uuid)

theorem dequeAppend_length_le {α : Type} (m : Nat) (l : List α) (x : α)
    (h : l.length ≤ m) : (dequeAppend m l x).length ≤ m := by
  unfold dequeAppend
  by_cases hlt : m < (l ++ [x]).length
  · simp only [if_pos hlt, List.length_drop]
    omega
  · rw [if_neg hlt]
    simp only [List.length_append, List.length_singleton] at hlt ⊢
    omega

theorem dequeAppend_full {α : Type} (m : Nat) (l : List α) (x : α) (hm : 0 < m)
    (h : l.length = m) : dequeAppend m l x = l.drop 1 ++ [x] := by
  unfold dequeAppend
  have hlt : m < (l ++ [x]).length := by simp [List.length_append, h]
  rw [if_pos hlt]
  have hd : (l ++ [x]).length - m = 1 := by simp [List.length_append, h]
  rw [hd]
  exact List.drop_append_of_le_length (by omega)

theorem dequeAppend_getLast {α : Type} (m : Nat) (l : List α) (x : α) (hm : 0 < m) :
    (dequeAppend m l x).getLast? = some x ∧ dequeAppend m l x ≠ [] := by
  unfold dequeAppend
  by_cases hlt : m < (l ++ [x]).length
  · rw [if_pos hlt]
    have hle : (l ++ [x]).length - m ≤ l.length := by
      simp only [List.length_append, List.length_singleton]
      omega
    rw [List.drop_append_of_le_length hle]
    exact ⟨List.getLast?_concat _, by simp⟩
  · rw [if_neg hlt]
    exact ⟨List.getLast?_concat _, by simp⟩

/-- A fully populated coordinator state used to instantiate theorems. -/
def baseApp : App :=
  { client := none, state := StateService.init, selected_device := none,
    selected_char := none, status := "Ready", errlog := [], platform := "linux",
    scan_in_progress := false }

/-- C1: invoking the per-key clear-history operation on key `k` empties
`k`'s Log Ring and removes `k`'s last raw value, while the subscription set
and every other key's ring and last raw value are unchanged. -/
theorem clear_history_frame (s : StateService) (k k2 : String) (h : k2 ≠ k) :
    (alookup k (s.clear_char_log k).logs).getD [] = [] ∧
    alookup k (s.clear_char_log k).latest_data = none ∧
    (s.clear_char_log k).subscribed = s.subscribed ∧
    alookup k2 (s.clear_char_log k).logs = alookup k2 s.logs ∧
    alookup k2 (s.clear_char_log k).latest_data = alookup k2 s.latest_data := by
  refine ⟨?_, ?_, rfl, ?_, ?_⟩
  · show (alookup k (emptyRingAt k s.logs)).getD [] = []
    rw [alookup_emptyRingAt_self]
    cases alookup k s.logs <;> simp
  · exact alookup_aerase_self k s.latest_data
  · exact alookup_emptyRingAt_ne k k2 s.logs h
  · exact alookup_aerase_ne k k2 s.latest_data h

/-- Entry used to populate example rings. -/
def wEntry : LogEntry := { ts := "t", size := 1, hex_str := "01", json_str := none }

/-- State with 5 stored entries under "k" and 3 under "other" (the spec's
clear-history scenario). -/
def c1state : StateService :=
  { StateService.init with
    logs := [("k", List.replicate 5 wEntry), ("other", List.replicate 3 wEntry)],
    latest_data := [("k", [1]), ("other", [1])],
    subscribed := ["k"] }

theorem clear_history_frame_witness :
    (("other" : String) ≠ "k") ∧
    ((alookup "k" (c1state.clear_char_log "k").logs).getD [] = [] ∧
      alookup "k" (c1state.clear_char_log "k").latest_data = none ∧
      (c1state.clear_char_log "k").subscribed = c1state.subscribed ∧
      alookup "other" (c1state.clear_char_log "k").logs = alookup "other" c1state.logs ∧
      alookup "other" (c1state.clear_char_log "k").latest_data =
        alookup "other" c1state.latest_data) :=
  ⟨by decide, clear_history_frame c1state "k" "other" (by decide)⟩

/-- C5: after any disconnect — the solicited `_disconnect_internal` path or
the unsolicited `_handle_disconnect` path — the services map, the
handle-to-key index, the subscription set, all per-key logs and all last
raw values are empty, and each path resets them in the single
`clear_connection_state` step (never partially). -/
theorem disconnect_clears_connection_state (a : App) (dres : Except BleExc Unit) :
    (disconnect_internal a dres).state = a.state.clear_connection_state ∧
    (handle_disconnect a).state = a.state.clear_connection_state ∧
    (disconnect_internal a dres).client = none ∧
    (handle_disconnect a).client = none ∧
    (disconnect_internal a dres).state.services = [] ∧
    (disconnect_internal a dres).state.key_by_handle = [] ∧
    (disconnect_internal a dres).state.subscribed = [] ∧
    (disconnect_internal a dres).state.logs = [] ∧
    (disconnect_internal a dres).state.latest_data = [] ∧
    (handle_disconnect a).state.services = [] ∧
    (handle_disconnect a).state.key_by_handle = [] ∧
    (handle_disconnect a).state.subscribed = [] ∧
    (handle_disconnect a).state.logs = [] ∧
    (handle_disconnect a).state.latest_data = [] := by
  unfold disconnect_internal handle_disconnect StateService.clear_connection_state
    set_status record_error
  cases a.client <;> cases dres <;> simp

/-- C7: a key's Log Ring never exceeds `LOG_MAX` entries; appending to a
ring already holding `LOG_MAX` evicts the oldest entry and keeps the
newest `LOG_MAX` (the survivors plus the new entry). -/
theorem log_ring_bounded (s : StateService) (key ts : String) (data : List Nat)
    (h : ((alookup key s.logs).getD []).length ≤ LOG_MAX) :
    ((alookup key ((s.append_value key ts data).1.logs)).getD []).length ≤ LOG_MAX ∧
    (((alookup key s.logs).getD []).length = LOG_MAX →
      (alookup key ((s.append_value key ts data).1.logs)).getD [] =
        ((alookup key s.logs).getD []).drop 1 ++ [(s.append_value key ts data).2]) := by
  unfold StateService.append_value
  simp only [alookup_aset_self, Option.getD_some]
  exact ⟨dequeAppend_length_le LOG_MAX _ _ h,
    fun hfull => dequeAppend_full LOG_MAX _ _ (by decide) hfull⟩

theorem log_ring_bounded_witness :
    (((alookup "k" StateService.init.logs).getD []).length ≤ LOG_MAX) ∧
    (((alookup "k" ((StateService.init.append_value "k" "t" [1]).1.logs)).getD []).length ≤
        LOG_MAX ∧
      (((alookup "k" StateService.init.logs).getD []).length = LOG_MAX →
        (alookup "k" ((StateService.init.append_value "k" "t" [1]).1.logs)).getD [] =
          ((alookup "k" StateService.init.logs).getD []).drop 1 ++
            [(StateService.init.append_value "k" "t" [1]).2])) :=
  ⟨by decide, log_ring_bounded StateService.init "k" "t" [1] (by decide)⟩

/-- C8: appending the raw bytes of `'\x7b"a":1\x7d'` yields a ValueEntry
whose hex rendering decodes back to exactly those bytes and whose json
rendering parses to the object with the single member "a": 1; appending
the bytes ff fe yields a ValueEntry with no json rendering. -/
theorem codec_roundtrip_examples :
    hexUngroup ((StateService.init.append_value "k" "t"
        [123, 34, 97, 34, 58, 49, 125]).2.hex_str) =
      some [123, 34, 97, 34, 58, 49, 125] ∧
    (StateService.init.append_value "k" "t" [123, 34, 97, 34, 58, 49, 125]).2.json_str =
      some "\x7b\"a\":1\x7d" ∧
    jparse ("\x7b\"a\":1\x7d".toList) = some (Json.jobj [("a", Json.jnum 1)]) ∧
    (StateService.init.append_value "k" "t" [255, 254]).2.json_str = none :=
  ⟨by decide, by decide, by rfl, by decide⟩

/-- C9: when a notification delivery carries a numeric transport handle
that the handle-to-key index resolves, the value is appended under the
resolved key (the handle wins over the key captured at subscribe time);
without a handle the originally captured key is used. -/
theorem notify_key_resolution (a : App) (captured uuid ts : String) (data : List Nat)
    (hnd : Nat) (k : String) (hidx : alookup hnd a.state.key_by_handle = some k) :
    deliver_notification a captured uuid (some hnd) data ts =
      set_status { a with state := (a.state.append_value k ts data).1 }
        ("Notify " ++ uuid ++ " (" ++ toString data.length ++ " B)") ∧
    deliver_notification a captured uuid none data ts =
      set_status { a with state := (a.state.append_value captured ts data).1 }
        ("Notify " ++ uuid ++ " (" ++ toString data.length ++ " B)") := by
  simp only [deliver_notification, notify_cb_key]
  rw [hidx]
  exact ⟨rfl, trivial⟩

/-- App connected to a device whose index maps handle 5 to key "hk". -/
def c9app : App :=
  { baseApp with
    client := some (),
    state := { StateService.init with key_by_handle := [(5, "hk")] } }

theorem notify_key_resolution_witness :
    alookup 5 c9app.state.key_by_handle = some "hk" ∧
    (deliver_notification c9app "cap" "u" (some 5) [7] "t" =
        set_status { c9app with state := (c9app.state.append_value "hk" "t" [7]).1 }
          ("Notify " ++ "u" ++ " (" ++ toString ([7] : List Nat).length ++ " B)") ∧
      deliver_notification c9app "cap" "u" none [7] "t" =
        set_status { c9app with state := (c9app.state.append_value "cap" "t" [7]).1 }
          ("Notify " ++ "u" ++ " (" ++ toString ([7] : List Nat).length ++ " B)")) :=
  ⟨by decide, notify_key_resolution c9app "cap" "u" "t" [7] 5 "hk" (by decide)⟩

/-- C2: when a with-response write fails, the coordinator makes exactly one
fallback without-response gateway call and no third attempt — the call
trace is `[true, false]` — and when that fallback succeeds, the reported
status is the fallback-success message, which differs from the plain
success message of the same write. -/
theorem write_fallback_policy (a : App) (info : CharacteristicInfo) (data : List Nat)
    (g : Bool → Except BleExc Unit) (e : BleExc)
    (hfail : g true = Except.error e) :
    (do_write a info data true g).2 = [true, false] ∧
    (g false = Except.ok () →
      (do_write a info data true g).1.status =
        "Wrote " ++ toString data.length ++ " bytes to " ++ info.uuid ++
          " (no-response fallback)" ∧
      "Wrote " ++ toString data.length ++ " bytes to " ++ info.uuid ++
          " (no-response fallback)" ≠
        "Wrote " ++ toString data.length ++ " bytes to " ++ info.uuid) := by
  unfold do_write
  rw [hfail]
  constructor
  · cases hgf : g false <;> simp [hgf, record_error, set_status]
  · intro hok
    rw [hok]
    refine ⟨rfl, fun hEq => ?_⟩
    have h2 := congrArg String.length hEq
    rw [String.length_append] at h2
    have h3 : (" (no-response fallback)" : String).length = 0 := by omega
    exact absurd h3 (by decide)

/-- Gateway whose with-response write fails and whose without-response
write succeeds. -/
def c2g : Bool → Except BleExc Unit :=
  fun b => if b then Except.error ⟨"r", "s"⟩ else Except.ok ()

/-- A writable characteristic. -/
def c2info : CharacteristicInfo :=
  { key := "k", uuid := "u", properties := ["write"], service_uuid := "svc",
    charHandle := none }

theorem write_fallback_policy_witness :
    c2g true = Except.error ⟨"r", "s"⟩ ∧
    ((do_write baseApp c2info [1] true c2g).2 = [true, false] ∧
      (c2g false = Except.ok () →
        (do_write baseApp c2info [1] true c2g).1.status =
          "Wrote " ++ toString ([1] : List Nat).length ++ " bytes to " ++ c2info.uuid ++
            " (no-response fallback)" ∧
        "Wrote " ++ toString ([1] : List Nat).length ++ " bytes to " ++ c2info.uuid ++
            " (no-response fallback)" ≠
          "Wrote " ++ toString ([1] : List Nat).length ++ " bytes to " ++ c2info.uuid)) :=
  ⟨rfl, write_fallback_policy baseApp c2info [1] c2g ⟨"r", "s"⟩ rfl⟩

/-- A sequence of `toggle-notify` invocations, each given its gateway
start/stop outcome. -/
def toggleRun (a : App) (rs : List (Except BleExc Unit)) : App :=
  rs.foldl action_toggle_notify a

/-- The net effect of the successful start/stop calls in a toggle sequence
on one key's membership: a success flips membership, a failure leaves it. -/
def netEffect (b : Bool) (rs : List (Except BleExc Unit)) : Bool :=
  rs.foldl
    (fun cur r =>
      match r with
      | Except.ok _ => !cur
      | Except.error _ => cur)
    b

theorem toggle_step (a : App) (key : String) (info : CharacteristicInfo)
    (r : Except BleExc Unit)
    (hc : a.client = some ()) (hsel : a.selected_char = some key)
    (hres : a.state.find_char key = some info)
    (hnot : "notify" ∈ info.properties ∨ "indicate" ∈ info.properties) :
    (action_toggle_notify a r).client = some () ∧
    (action_toggle_notify a r).selected_char = some key ∧
    (action_toggle_notify a r).state.services = a.state.services ∧
    (key ∈ (action_toggle_notify a r).state.subscribed ↔
      (match r with
        | Except.ok _ => ¬ key ∈ a.state.subscribed
        | Except.error _ => key ∈ a.state.subscribed)) := by
  have hkey : info.key = key := find_char_key hres
  simp only [action_toggle_notify, hc, hsel, hres]
  rw [if_pos hnot]
  subst hkey
  by_cases hmem : info.key ∈ a.state.subscribed
  · rw [if_pos hmem]
    cases r with
    | error e => simp [record_error, set_status, hmem, hc, hsel]
    | ok u => simp [set_status, List.mem_filter, hmem, hc, hsel]
  · rw [if_neg hmem]
    cases r with
    | error e => simp [record_error, set_status, hmem, hc, hsel]
    | ok u => simp [set_status, hmem, hc, hsel]

/-- C6: over any sequence of toggle-notify calls on one notifiable key,
membership of the key in the subscription set equals the net effect of the
successful gateway start/stop calls — each success flips membership (a
successful start adds, a successful stop removes), each failure leaves it
(a failed stop keeps the key subscribed, a failed start never adds it). -/
theorem toggle_notify_net_effect (a : App) (key : String) (info : CharacteristicInfo)
    (rs : List (Except BleExc Unit))
    (hc : a.client = some ()) (hsel : a.selected_char = some key)
    (hres : a.state.find_char key = some info)
    (hnot : "notify" ∈ info.properties ∨ "indicate" ∈ info.properties) :
    key ∈ (toggleRun a rs).state.subscribed ↔
      netEffect (decide (key ∈ a.state.subscribed)) rs = true := by
  induction rs generalizing a with
  | nil => simp [toggleRun, netEffect]
  | cons r rest ih =>
    obtain ⟨h1, h2, h3, h4⟩ := toggle_step a key info r hc hsel hres hnot
    have hres2 : (action_toggle_notify a r).state.find_char key = some info := by
      unfold StateService.find_char
      rw [h3]
      exact hres
    have hrec := ih (action_toggle_notify a r) h1 h2 hres2
    show key ∈ (toggleRun (action_toggle_notify a r) rest).state.subscribed ↔
      netEffect (decide (key ∈ a.state.subscribed)) (r :: rest) = true
    cases r with
    | ok u =>
      have hb : decide (key ∈ (action_toggle_notify a (Except.ok u)).state.subscribed) =
          !decide (key ∈ a.state.subscribed) := by
        rw [decide_eq_decide.mpr h4, decide_not]
      rw [hrec, hb]
      exact Iff.rfl
    | error e =>
      have hb : decide (key ∈ (action_toggle_notify a (Except.error e)).state.subscribed) =
          decide (key ∈ a.state.subscribed) := decide_eq_decide.mpr h4
      rw [hrec, hb]
      exact Iff.rfl

/-- A notifiable characteristic under key "nk". -/
def c6info : CharacteristicInfo :=
  { key := "nk", uuid := "u", properties := ["notify"], service_uuid := "svc",
    charHandle := none }

/-- Connected app with the "nk" characteristic selected. -/
def c6app : App :=
  { baseApp with
    client := some (),
    selected_char := some "nk",
    state := { StateService.init with services := [("svc", [c6info])] } }

theorem toggle_notify_net_effect_witness :
    c6app.client = some () ∧
    c6app.selected_char = some "nk" ∧
    c6app.state.find_char "nk" = some c6info ∧
    ("notify" ∈ c6info.properties ∨ "indicate" ∈ c6info.properties) ∧
    ("nk" ∈
        (toggleRun c6app
          [Except.ok (), Except.error ⟨"r", "s"⟩, Except.ok ()]).state.subscribed ↔
      netEffect (decide ("nk" ∈ c6app.state.subscribed))
          [Except.ok (), Except.error ⟨"r", "s"⟩, Except.ok ()] = true) :=
  ⟨rfl, rfl, by decide, by decide,
    toggle_notify_net_effect c6app "nk" c6info
      [Except.ok (), Except.error ⟨"r", "s"⟩, Except.ok ()] rfl rfl (by decide) (by decide)⟩

/-- The Session State mutating operations (the `StateService` methods). -/
inductive StOp where
  | append : String → String → List Nat → StOp
  | clearConn : StOp
  | clearChar : String → StOp
  | setGatt : List (String × List CharacteristicInfo) → List (Nat × String) → StOp
  | replaceDevices : List DeviceInfo → StOp

/-- Apply one Session State operation. -/
def applyOp (s : StateService) : StOp → StateService
  | StOp.append k ts d => (s.append_value k ts d).1
  | StOp.clearConn => s.clear_connection_state
  | StOp.clearChar k => s.clear_char_log k
  | StOp.setGatt sv kb => s.set_gatt sv kb
  | StOp.replaceDevices ds => s.replace_devices ds

/-- A key has a stored last raw value exactly when its Log Ring exists and
is non-empty, and then the newest ring entry renders that raw value: its
hex rendering and byte length match. -/
def logsLatestInv (s : StateService) : Prop :=
  ∀ k : String,
    ((alookup k s.latest_data).isSome ↔ ∃ r, alookup k s.logs = some r ∧ r ≠ []) ∧
    (∀ d r, alookup k s.latest_data = some d → alookup k s.logs = some r →
      ∃ e, r.getLast? = some e ∧ e.hex_str = hex_groups d ∧ e.size = d.length)

theorem logsLatestInv_init : logsLatestInv StateService.init := by
  intro k
  constructor
  · simp [StateService.init, alookup]
  · intro d r hd
    simp [StateService.init, alookup] at hd

theorem logsLatestInv_apply (s : StateService) (op : StOp) (h : logsLatestInv s) :
    logsLatestInv (applyOp s op) := by
  cases op with
  | clearConn =>
    intro k
    constructor
    · simp [applyOp, StateService.clear_connection_state, alookup]
    · intro d r hd
      simp [applyOp, StateService.clear_connection_state, alookup] at hd
  | setGatt sv kb => intro k; exact h k
  | replaceDevices ds => intro k; exact h k
  | append key ts d =>
    intro k
    by_cases hk : k = key
    · subst hk
      simp only [applyOp, StateService.append_value, alookup_aset_self]
      obtain ⟨hlast, _⟩ := dequeAppend_getLast LOG_MAX ((alookup k s.logs).getD [])
        ({ ts := ts, size := d.length, hex_str := hex_groups d,
            json_str := try_parse_json d } : LogEntry) (by decide)
      constructor
      · constructor
        · intro _
          refine ⟨_, rfl, ?_⟩
          exact (dequeAppend_getLast LOG_MAX _ _ (by decide)).2
        · intro _
          simp
      · intro d2 r hd2 hr
        have hd2e : d2 = d := ((Option.some.injEq _ _).mp hd2).symm
        have hre : r = dequeAppend LOG_MAX ((alookup k s.logs).getD [])
            ({ ts := ts, size := d.length, hex_str := hex_groups d,
                json_str := try_parse_json d } : LogEntry) :=
          ((Option.some.injEq _ _).mp hr).symm
        subst hd2e
        subst hre
        exact ⟨_, hlast, rfl, rfl⟩
    · have hl : alookup k ((s.append_value key ts d).1.logs) = alookup k s.logs :=
        alookup_aset_ne key k _ s.logs hk
      have hd : alookup k ((s.append_value key ts d).1.latest_data) =
          alookup k s.latest_data := alookup_aset_ne key k _ s.latest_data hk
      simp only [applyOp]
      rw [hl, hd]
      exact h k
  | clearChar key =>
    intro k
    by_cases hk : k = key
    · subst hk
      constructor
      · simp only [applyOp, StateService.clear_char_log, alookup_aerase_self,
          alookup_emptyRingAt_self]
        cases alookup k s.logs <;> simp
      · intro d r hd
        simp only [applyOp, StateService.clear_char_log, alookup_aerase_self] at hd
        exact absurd hd (by simp)
    · have hl : alookup k (s.clear_char_log key).logs = alookup k s.logs :=
        alookup_emptyRingAt_ne key k s.logs hk
      have hd : alookup k (s.clear_char_log key).latest_data = alookup k s.latest_data :=
        alookup_aerase_ne key k s.latest_data hk
      simp only [applyOp]
      rw [show (s.clear_char_log key).logs = emptyRingAt key s.logs from rfl] at hl
      constructor
      · rw [show (StateService.clear_char_log s key).latest_data =
            aerase key s.latest_data from rfl, alookup_aerase_ne key k s.latest_data hk,
          show (StateService.clear_char_log s key).logs = emptyRingAt key s.logs from rfl,
          hl]
        exact (h k).1
      · intro d r hd2 hr2
        rw [show (StateService.clear_char_log s key).latest_data =
            aerase key s.latest_data from rfl,
          alookup_aerase_ne key k s.latest_data hk] at hd2
        rw [show (StateService.clear_char_log s key).logs = emptyRingAt key s.logs from rfl,
          hl] at hr2
        exact (h k).2 d r hd2 hr2

/-- C10: after every sequence of Session State operations starting from
the initial state, a key has a stored last raw value iff its Log Ring
exists and is non-empty, and then the newest ring entry's hex rendering
and byte length equal those of the stored raw value. -/
theorem state_logs_latest_invariant (ops : List StOp) :
    logsLatestInv (ops.foldl applyOp StateService.init) := by
  suffices h : ∀ s, logsLatestInv s → logsLatestInv (ops.foldl applyOp s) from
    h _ logsLatestInv_init
  induction ops with
  | nil => exact fun s hs => hs
  | cons op rest ih => exact fun s hs => ih _ (logsLatestInv_apply s op hs)

/-- App with a device selected, ready to connect. -/
def c3app : App := { baseApp with selected_device := some "AA" }

/-- A discovery result with one empty service. -/
def c3gatt : GattResult :=
  { services_map := [("svc", [])], key_map := [], service_count := 1, char_count := 0 }

/-- C3 is refuted as stated: after a successful internal disconnect and a
successful open, a failed discovery leaves the session still holding an
active connection handle — not in the disconnected state. -/
theorem connect_discovery_failure_cex :
    (action_connect c3app (Except.ok ()) (Except.ok ())
        (Except.error ⟨"RuntimeError('x')", "x"⟩)).client = some () := by decide

/-- C3 (amended): `connect` performs the internal disconnect first, then
opens, then immediately discovers.  A failure of the open step leaves the
session disconnected with the connection-scoped state cleared; a failure
of the discovery step is reported but leaves the connection handle in
place, with the connection-scoped maps still empty; on full success the
handle is live and exactly the discovered maps are installed into the
state cleared by the initial disconnect. -/
theorem connect_sequencing (a : App) (addr : String) (dres : Except BleExc Unit)
    (e : BleExc) (g : GattResult) (hsel : a.selected_device = some addr) :
    ((action_connect a dres (Except.error e) (Except.error e)).client = none ∧
      (action_connect a dres (Except.error e) (Except.error e)).state =
        a.state.clear_connection_state) ∧
    ((action_connect a dres (Except.ok ()) (Except.error e)).client = some () ∧
      (action_connect a dres (Except.ok ()) (Except.error e)).state =
        a.state.clear_connection_state ∧
      (action_connect a dres (Except.ok ()) (Except.error e)).status =
        format_ble_error "Service discovery" e a.platform ERROR_LOG_PATH) ∧
    ((action_connect a dres (Except.ok ()) (Except.ok g)).client = some () ∧
      (action_connect a dres (Except.ok ()) (Except.ok g)).state =
        (a.state.clear_connection_state).set_gatt g.services_map g.key_map) := by
  cases hc : a.client <;> cases dres <;>
    simp [action_connect, hsel, disconnect_internal, discover_gatt_step, set_status,
      record_error, hc]

theorem connect_sequencing_witness :
    c3app.selected_device = some "AA" ∧
    (((action_connect c3app (Except.ok ()) (Except.error ⟨"r", "s"⟩)
          (Except.error ⟨"r", "s"⟩)).client = none ∧
        (action_connect c3app (Except.ok ()) (Except.error ⟨"r", "s"⟩)
            (Except.error ⟨"r", "s"⟩)).state = c3app.state.clear_connection_state) ∧
      ((action_connect c3app (Except.ok ()) (Except.ok ())
            (Except.error ⟨"r", "s"⟩)).client = some () ∧
        (action_connect c3app (Except.ok ()) (Except.ok ())
            (Except.error ⟨"r", "s"⟩)).state = c3app.state.clear_connection_state ∧
        (action_connect c3app (Except.ok ()) (Except.ok ())
            (Except.error ⟨"r", "s"⟩)).status =
          format_ble_error "Service discovery" ⟨"r", "s"⟩ c3app.platform ERROR_LOG_PATH) ∧
      ((action_connect c3app (Except.ok ()) (Except.ok ())
            (Except.ok c3gatt)).client = some () ∧
        (action_connect c3app (Except.ok ()) (Except.ok ()) (Except.ok c3gatt)).state =
          (c3app.state.clear_connection_state).set_gatt c3gatt.services_map
            c3gatt.key_map)) :=
  ⟨rfl, connect_sequencing c3app "AA" (Except.ok ()) ⟨"r", "s"⟩ c3gatt rfl⟩

/-- A readable and notifiable characteristic under key "rk". -/
def c4info : CharacteristicInfo :=
  { key := "rk", uuid := "u", properties := ["notify", "read"], service_uuid := "svc",
    charHandle := none }

/-- A gateway write that fails for both response flags. -/
def c4gw : Bool → Except BleExc Unit := fun _ => Except.error ⟨"r", "s"⟩

/-- Connected app with the readable "rk" characteristic selected and a
device selected for scanning/connecting. -/
def c4app : App :=
  { baseApp with
    client := some (),
    selected_device := some "AA",
    selected_char := some "rk",
    state := { StateService.init with services := [("svc", [c4info])] } }

/-- C4 is refuted as stated: a failed gateway read is reported as
"Read failed (details in ...)" — not the remediation-mapped
"<Action> failed: <hint> (details in <sink>)" form that the scan, connect
and discovery paths use. -/
theorem read_error_message_cex :
    (action_read_char c4app (Except.error ⟨"RuntimeError('x')", "x"⟩) "t").status ≠
      format_ble_error "Read" ⟨"RuntimeError('x')", "x"⟩ c4app.platform ERROR_LOG_PATH := by
  decide

/-- C4 (amended): every Device Gateway failure is recorded to the
diagnostic sink and turned into a returned user-facing status, never
raised (the embedded operations are total functions).  The scan, connect
and service-discovery failures use the platform remediation mapping,
`"<Action> failed: <hint> (details in <sink>)"`, while the read, write
(collapsed or direct without-response) and notify (failed stop or failed
start) failures are reported as the plain
`"<Action> failed (details in <sink>)"` without a remediation hint; a
failed best-effort disconnect close is likewise recorded while the
disconnect still completes with its normal status. -/
theorem gateway_failure_reporting (a : App) (e e2 : BleExc) (addr key ts : String)
    (info : CharacteristicInfo) (data : List Nat) (dres : Except BleExc Unit)
    (g : Except BleExc GattResult) (gw : Bool → Except BleExc Unit)
    (hscan : a.scan_in_progress = false)
    (hsel : a.selected_device = some addr)
    (hc : a.client = some ())
    (hselc : a.selected_char = some key)
    (hres : a.state.find_char key = some info)
    (hread : "read" ∈ info.properties)
    (hnot : "notify" ∈ info.properties ∨ "indicate" ∈ info.properties)
    (hgw1 : gw true = Except.error e)
    (hgw2 : gw false = Except.error e2) :
    ((action_scan a (Except.error e)).status =
        format_ble_error "Scan" e a.platform ERROR_LOG_PATH ∧
      (action_scan a (Except.error e)).errlog = a.errlog ++ [("scan", e)]) ∧
    ((action_connect a dres (Except.error e) g).status =
        format_ble_error "Connect" e a.platform ERROR_LOG_PATH ∧
      (action_connect a dres (Except.error e) g).errlog =
        (disconnect_internal a dres).errlog ++ [("connect", e)]) ∧
    ((discover_gatt_step a (Except.error e)).status =
        format_ble_error "Service discovery" e a.platform ERROR_LOG_PATH ∧
      (discover_gatt_step a (Except.error e)).errlog = a.errlog ++ [("discover_gatt", e)]) ∧
    ((action_disconnect a (Except.error e)).errlog = a.errlog ++ [("disconnect", e)] ∧
      (action_disconnect a (Except.error e)).status = "Disconnected") ∧
    ((action_read_char a (Except.error e) ts).status =
        "Read failed (details in " ++ ERROR_LOG_PATH ++ ")" ∧
      (action_read_char a (Except.error e) ts).errlog = a.errlog ++ [("read_char", e)]) ∧
    ((do_write a info data true gw).1.status =
        "Write failed (details in " ++ ERROR_LOG_PATH ++ ")" ∧
      (do_write a info data true gw).1.errlog =
        a.errlog ++ [("write_char (with-response, retrying without)", e),
          ("write_char (without-response)", e2)] ∧
      (do_write a info data false gw).1.status =
        "Write failed (details in " ++ ERROR_LOG_PATH ++ ")" ∧
      (do_write a info data false gw).1.errlog = a.errlog ++ [("write_char", e2)]) ∧
    ((key ∈ a.state.subscribed →
        (action_toggle_notify a (Except.error e)).status =
          "Stop notify failed (details in " ++ ERROR_LOG_PATH ++ ")" ∧
        (action_toggle_notify a (Except.error e)).errlog =
          a.errlog ++ [("stop_notify", e)]) ∧
      (¬ key ∈ a.state.subscribed →
        (action_toggle_notify a (Except.error e)).status =
          "Start notify failed (details in " ++ ERROR_LOG_PATH ++ ")" ∧
        (action_toggle_notify a (Except.error e)).errlog =
          a.errlog ++ [("start_notify", e)])) := by
  have hkey : info.key = key := find_char_key hres
  refine ⟨?_, ?_, ?_, ?_, ?_, ?_, ?_, ?_⟩
  · simp [action_scan, hscan, set_status, record_error]
  · cases dres <;>
      simp [action_connect, hsel, disconnect_internal, set_status, record_error, hc]
  · simp [discover_gatt_step, hc, set_status, record_error]
  · simp [action_disconnect, disconnect_internal, hc, set_status, record_error]
  · simp [action_read_char, hc, hselc, hres, hread, set_status, record_error]
  · simp [do_write, hgw1, hgw2, set_status, record_error]
  · intro hmem
    have hmem2 : info.key ∈ a.state.subscribed := by rw [hkey]; exact hmem
    simp [action_toggle_notify, hc, hselc, hres, hnot, hmem2, set_status, record_error]
  · intro hmem
    have hmem2 : ¬ info.key ∈ a.state.subscribed := by rw [hkey]; exact hmem
    simp [action_toggle_notify, hc, hselc, hres, hnot, hmem2, set_status, record_error]

theorem gateway_failure_reporting_witness :
    c4app.scan_in_progress = false ∧
    c4app.selected_device = some "AA" ∧
    c4app.client = some () ∧
    c4app.selected_char = some "rk" ∧
    c4app.state.find_char "rk" = some c4info ∧
    "read" ∈ c4info.properties ∧
    ("notify" ∈ c4info.properties ∨ "indicate" ∈ c4info.properties) ∧
    c4gw true = Except.error ⟨"r", "s"⟩ ∧
    c4gw false = Except.error ⟨"r", "s"⟩ ∧
    (((action_scan c4app (Except.error ⟨"r", "s"⟩)).status =
          format_ble_error "Scan" ⟨"r", "s"⟩ c4app.platform ERROR_LOG_PATH ∧
        (action_scan c4app (Except.error ⟨"r", "s"⟩)).errlog =
          c4app.errlog ++ [("scan", ⟨"r", "s"⟩)]) ∧
      ((action_connect c4app (Except.ok ()) (Except.error ⟨"r", "s"⟩)
            (Except.error ⟨"r", "s"⟩)).status =
          format_ble_error "Connect" ⟨"r", "s"⟩ c4app.platform ERROR_LOG_PATH ∧
        (action_connect c4app (Except.ok ()) (Except.error ⟨"r", "s"⟩)
            (Except.error ⟨"r", "s"⟩)).errlog =
          (disconnect_internal c4app (Except.ok ())).errlog ++ [("connect", ⟨"r", "s"⟩)]) ∧
      ((discover_gatt_step c4app (Except.error ⟨"r", "s"⟩)).status =
          format_ble_error "Service discovery" ⟨"r", "s"⟩ c4app.platform ERROR_LOG_PATH ∧
        (discover_gatt_step c4app (Except.error ⟨"r", "s"⟩)).errlog =
          c4app.errlog ++ [("discover_gatt", ⟨"r", "s"⟩)]) ∧
      ((action_disconnect c4app (Except.error ⟨"r", "s"⟩)).errlog =
          c4app.errlog ++ [("disconnect", ⟨"r", "s"⟩)] ∧
        (action_disconnect c4app (Except.error ⟨"r", "s"⟩)).status = "Disconnected") ∧
      ((action_read_char c4app (Except.error ⟨"r", "s"⟩) "t").status =
          "Read failed (details in " ++ ERROR_LOG_PATH ++ ")" ∧
        (action_read_char c4app (Except.error ⟨"r", "s"⟩) "t").errlog =
          c4app.errlog ++ [("read_char", ⟨"r", "s"⟩)]) ∧
      ((do_write c4app c4info [1] true c4gw).1.status =
          "Write failed (details in " ++ ERROR_LOG_PATH ++ ")" ∧
        (do_write c4app c4info [1] true c4gw).1.errlog =
          c4app.errlog ++ [("write_char (with-response, retrying without)", ⟨"r", "s"⟩),
            ("write_char (without-response)", ⟨"r", "s"⟩)] ∧
        (do_write c4app c4info [1] false c4gw).1.status =
          "Write failed (details in " ++ ERROR_LOG_PATH ++ ")" ∧
        (do_write c4app c4info [1] false c4gw).1.errlog =
          c4app.errlog ++ [("write_char", ⟨"r", "s"⟩)]) ∧
      (("rk" ∈ c4app.state.subscribed →
          (action_toggle_notify c4app (Except.error ⟨"r", "s"⟩)).status =
            "Stop notify failed (details in " ++ ERROR_LOG_PATH ++ ")" ∧
          (action_toggle_notify c4app (Except.error ⟨"r", "s"⟩)).errlog =
            c4app.errlog ++ [("stop_notify", ⟨"r", "s"⟩)]) ∧
        (¬ "rk" ∈ c4app.state.subscribed →
          (action_toggle_notify c4app (Except.error ⟨"r", "s"⟩)).status =
            "Start notify failed (details in " ++ ERROR_LOG_PATH ++ ")" ∧
          (action_toggle_notify c4app (Except.error ⟨"r", "s"⟩)).errlog =
            c4app.errlog ++ [("start_notify", ⟨"r", "s"⟩)]))) :=
  ⟨rfl, rfl, rfl, rfl, by decide, by decide, by decide, rfl, rfl,
    gateway_failure_reporting c4app ⟨"r", "s"⟩ ⟨"r", "s"⟩ "AA" "rk" "t" c4info [1]
      (Except.ok ()) (Except.error ⟨"r", "s"⟩) c4gw rfl rfl rfl rfl (by decide) (by decide)
      (by decide) rfl rfl⟩

end BleTui
